import Mathlib

/-
Verification of the security/session core of the BBS repository
(`secure_bbs.py`, `bbs_web.py`).  Python strings are modelled as
`List Char`; wall-clock times (`time.time()`) as rationals; Python
dicts keyed by source address as total functions with empty default.
All character-class and case-folding operations are ASCII, which is
faithful for every pattern literal and every code path exercised here
(the source only compares against ASCII literals).
-/

namespace BBS

/-- Matches the character class `[\x00-\x08\x0B\x0C\x0E-\x1F\x7F]` used both
by the control-character stripping `re.sub` and by `BANNED_PATTERNS[6]`
in `SecurityValidator` (secure_bbs.py lines 56 and 117). -/
def ctrlChar (c : Char) : Bool :=
  c.toNat ≤ 8 || c.toNat == 11 || c.toNat == 12 ||
    (14 ≤ c.toNat && c.toNat ≤ 31) || c.toNat == 127

/-- ASCII whitespace recognised by Python `str.strip()` and by the regex
class `\s` (space, tab, newline, carriage return, vertical tab, form feed). -/
def pyWs (c : Char) : Bool :=
  c == ' ' || c == '\t' || c == '\n' || c == '\r' ||
    c == Char.ofNat 11 || c == Char.ofNat 12

/-- Python `str.strip()` (ASCII fragment): drop whitespace at both ends. -/
def pyStrip (l : List Char) : List Char :=
  ((l.dropWhile pyWs).reverse.dropWhile pyWs).reverse

/-- Python `str.lower()` (ASCII fragment). -/
def pyLower (l : List Char) : List Char := l.map Char.toLower

/-- Python `str.upper()` (ASCII fragment). -/
def pyUpper (l : List Char) : List Char := l.map Char.toUpper

/-- The regex class `\w` = `[A-Za-z0-9_]` (ASCII fragment), which is also
the class of the username regex `^[a-zA-Z0-9_]+$`. -/
def wordChar (c : Char) : Bool := c.isAlpha || c.isDigit || c == '_'

/-- `pat` occurs as a contiguous substring of `l` (the semantics of
`re.search` for a regex that is a plain literal). -/
def containsSub (pat : List Char) : List Char → Bool
  | [] => pat.isPrefixOf []
  | c :: cs => pat.isPrefixOf (c :: cs) || containsSub pat cs

/-- Continuation of the script-tag regex after the opening `>` has been
consumed: `.*?</script>`, where `.` does not match a newline.  True iff
some split `l = a ++ "</script>" ++ b` exists with `a` newline-free. -/
def scriptClose : List Char → Bool
  | [] => false
  | c :: cs =>
    ("</script>".data.isPrefixOf (c :: cs)) || (!(c == '\n') && scriptClose cs)

/-- Continuation of the script-tag regex after `"<script"`: `[^>]*>` followed
by `scriptClose`.  The `[^>]*` run necessarily stops at the first `>`. -/
def scriptOpenRest : List Char → Bool
  | [] => false
  | c :: cs => if c == '>' then scriptClose cs else scriptOpenRest cs

/-- `re.search` of `BANNED_PATTERNS[0] = r'<script[^>]*>.*?</script>'` on
already lower-cased text. -/
def hasScriptTag : List Char → Bool
  | [] => false
  | c :: cs =>
    ("<script".data.isPrefixOf (c :: cs) && scriptOpenRest ((c :: cs).drop 7))
      || hasScriptTag cs

/-- The `\s*=` tail of the event-handler regex. -/
def wsStarEq : List Char → Bool
  | [] => false
  | c :: cs => c == '=' || (pyWs c && wsStarEq cs)

/-- The `\w*\s*=` tail of the event-handler regex. -/
def wStarWsEq : List Char → Bool
  | [] => false
  | c :: cs => wsStarEq (c :: cs) || (wordChar c && wStarWsEq cs)

/-- `re.search` of `BANNED_PATTERNS[3] = r'on\w+\s*='` on lower-cased text. -/
def hasEventHandler : List Char → Bool
  | 'o' :: 'n' :: c :: cs =>
      (wordChar c && wStarWsEq cs) || hasEventHandler ('n' :: c :: cs)
  | _ :: cs => hasEventHandler cs
  | [] => false

/-- The SQL keywords of `BANNED_PATTERNS[7]`. -/
def sqlKeywords : List (List Char) :=
  ["union".data, "select".data, "insert".data, "update".data,
   "delete".data, "drop".data, "create".data, "alter".data]

/-- One SQL keyword immediately followed by a `\s` character, at the head. -/
def sqlKwAt (l : List Char) : Bool :=
  sqlKeywords.any fun kw =>
    kw.isPrefixOf l &&
      (match l.drop kw.length with
       | c :: _ => pyWs c
       | [] => false)

/-- `re.search` of `BANNED_PATTERNS[7] = r'(?i)(union|select|...|alter)\s'`
on lower-cased text. -/
def hasSqlKeyword : List Char → Bool
  | [] => false
  | c :: cs => sqlKwAt (c :: cs) || hasSqlKeyword cs

/-- The banned-pattern scan of `SecurityValidator.sanitize_text`
(secure_bbs.py lines 119-123): true iff `re.search(p, text, re.IGNORECASE)`
succeeds for some `p` in `BANNED_PATTERNS`.  Case-insensitivity is realised
by lower-casing the text once; the patterns are written in lower case and
their character classes are closed under ASCII case folding. -/
def bannedAny (t : List Char) : Bool :=
  let low := pyLower t
  hasScriptTag low || containsSub "javascript:".data low ||
    containsSub "vbscript:".data low || hasEventHandler low ||
    containsSub [Char.ofNat 0] low || containsSub "../".data low ||
    t.any ctrlChar || hasSqlKeyword low

/-- The sentinel returned on any banned-pattern match. -/
def CONTENT_FILTERED : List Char := "[CONTENT FILTERED]".data

/-- `html.escape(text)` with its default `quote=True`: the five sequential
`str.replace` calls are equivalent to this single character-wise map since
no replacement string contains a character replaced later. -/
def escChar (c : Char) : List Char :=
  if c == '&' then "&amp;".data
  else if c == '<' then "&lt;".data
  else if c == '>' then "&gt;".data
  else if c == '"' then "&quot;".data
  else if c == Char.ofNat 39 then "&#x27;".data
  else [c]

/-- `html.escape` on a whole string. -/
def htmlEscape (l : List Char) : List Char := l.flatMap escChar

/-- `SecurityValidator.sanitize_text(text, max_length)`
(secure_bbs.py lines 110-132).  `none` models the default `max_length=None`;
Python's `if max_length and len(text) > max_length` treats `0` as falsy,
hence the extra `m ≠ 0` test. -/
def sanitize_text (text : List Char) (max_length : Option Nat) : List Char :=
  if text.isEmpty then []
  else
    let t := text.filter fun c => !ctrlChar c
    if bannedAny t then CONTENT_FILTERED
    else
      let e := htmlEscape t
      let e2 := match max_length with
        | some m => if m ≠ 0 && decide (m < e.length) then e.take m else e
        | none => e
      pyStrip e2

/-- `re.match(r'^[a-zA-Z0-9_]+$', s)`: one or more word characters spanning
the whole string, where Python's `$` also matches just before a single
trailing newline (so `"ab\n"` matches). -/
def reMatchWordLine (s : List Char) : Bool :=
  (!s.isEmpty && s.all wordChar) ||
    (match s.getLast? with
     | some c => c == '\n' && !s.dropLast.isEmpty && s.dropLast.all wordChar
     | none => false)

/-- The reserved usernames of `SecurityValidator.validate_username`. -/
def reservedNames : List (List Char) :=
  ["admin".data, "root".data, "system".data, "sysop".data,
   "guest".data, "anonymous".data, "user".data]

/-- `SecurityValidator.validate_username` (secure_bbs.py lines 60-85),
returning `(ok, reason)`.  `MAX_USERNAME = 20`.  `username[0].isalpha()` is
evaluated only after the word-character regex has passed, so the ASCII
`Char.isAlpha` agrees with Python there. -/
def validate_username (username : List Char) : Bool × List Char :=
  if username.isEmpty then (false, "Username cannot be empty".data)
  else if 20 < username.length then (false, "Username too long (max 20)".data)
  else if username.length < 3 then
    (false, "Username too short (min 3 characters)".data)
  else if !reMatchWordLine username then
    (false, "Username can only contain letters, numbers, and underscores".data)
  else if !(username.headD ' ').isAlpha then
    (false, "Username must start with a letter".data)
  else if reservedNames.contains (pyLower username) then
    (false, "Username is reserved".data)
  else (true, "Valid".data)

/-- The fixed special-character set of `validate_password`. -/
def pwSpecialChars : List Char := "!@#$%^&*()_+-=[]{}|;:,.<>?".data

/-- `SecurityValidator.validate_password` (secure_bbs.py lines 87-108).
`MAX_PASSWORD = 128`. -/
def validate_password (password : List Char) : Bool × List Char :=
  if password.isEmpty then (false, "Password cannot be empty".data)
  else if password.length < 8 then
    (false, "Password must be at least 8 characters".data)
  else if 128 < password.length then (false, "Password too long (max 128)".data)
  else if !(password.any Char.isUpper && password.any Char.isLower &&
      password.any Char.isDigit && password.any fun c => pwSpecialChars.contains c) then
    (false,
     "Password must contain uppercase, lowercase, digit, and special character".data)
  else (true, "Valid".data)

/-! ## RateLimiter (secure_bbs.py lines 180-234)

`command_counts` and `login_attempts` are dicts from source address to a
list of `(timestamp, count)` samples; `lockouts` maps an address to an
optional `lockout_until` timestamp.  Dicts are modelled as total functions
whose default is the empty list / `none`: the source only ever reads a
missing key as the empty list (via `in` guards whose else-branches behave
identically) and creating an empty entry is unobservable. -/

/-- The mutable state of a `RateLimiter` instance. -/
structure RateLimiter where
  command_counts : String → List (ℚ × ℕ)
  login_attempts : String → List (ℚ × ℕ)
  lockouts : String → Option ℚ

/-- The freshly constructed rate limiter (`RateLimiter.__init__`). -/
def RateLimiter.init : RateLimiter :=
  ⟨fun _ => [], fun _ => [], fun _ => none⟩

/-- `RateLimiter.cleanup_old_entries(ip, now)` (lines 228-234): drop samples
older than 3600 s from both windows of `ip`. -/
def cleanup_old_entries (s : RateLimiter) (ip : String) (now : ℚ) : RateLimiter :=
  { s with
    command_counts := fun j =>
      if j = ip then (s.command_counts j).filter fun p => decide (now - p.1 < 3600)
      else s.command_counts j
    login_attempts := fun j =>
      if j = ip then (s.login_attempts j).filter fun p => decide (now - p.1 < 3600)
      else s.login_attempts j }

/-- The lockout test at the head of `is_rate_limited`:
`ip in self.lockouts and now < self.lockouts[ip]`. -/
def lockout_active (s : RateLimiter) (ip : String) (now : ℚ) : Bool :=
  match s.lockouts ip with
  | some u => decide (now < u)
  | none => false

/-- `RateLimiter.is_rate_limited(ip)` (lines 188-205), with the call time
`now = time.time()` explicit.  Returns the boolean result together with the
(possibly mutated) limiter state: the early lockout return skips the
cleanup, otherwise `cleanup_old_entries` rewrites both windows of `ip`
before the trailing-60 s command count (`MAX_COMMANDS_PER_MINUTE = 30`)
is taken. -/
def is_rate_limited (s : RateLimiter) (ip : String) (now : ℚ) :
    Bool × RateLimiter :=
  if lockout_active s ip now then (true, s)
  else
    let s2 := cleanup_old_entries s ip now
    if 30 ≤ (s2.command_counts ip).countP fun p => decide (now - p.1 < 60) then
      (true, s2)
    else (false, s2)

/-- `RateLimiter.record_command(ip)` (lines 207-212). -/
def record_command (s : RateLimiter) (ip : String) (now : ℚ) : RateLimiter :=
  { s with
    command_counts := fun j =>
      if j = ip then s.command_counts j ++ [(now, 1)] else s.command_counts j }

/-- `RateLimiter.record_login_attempt(ip, success)` (lines 214-226).
On failure the sample is appended first, then the trailing-300 s failure
count of the appended window is compared with `MAX_LOGIN_ATTEMPTS = 5`;
on reaching it, `lockouts[ip] = now + LOCKOUT_DURATION` with
`LOCKOUT_DURATION = 300`.  On success only the (unobservable) empty dict
entry is ensured, so the state is returned unchanged. -/
def record_login_attempt (s : RateLimiter) (ip : String) (success : Bool)
    (now : ℚ) : RateLimiter :=
  if success then s
  else
    let newList := s.login_attempts ip ++ [(now, 1)]
    let la : String → List (ℚ × ℕ) := fun j =>
      if j = ip then newList else s.login_attempts j
    if 5 ≤ newList.countP fun p => decide (now - p.1 < 300) then
      { s with login_attempts := la
               lockouts := fun j => if j = ip then some (now + 300) else s.lockouts j }
    else { s with login_attempts := la }

/-- Trailing-window command count of the raw state, as the spec words it:
the number of command samples of `ip` within the trailing 60 s. -/
def cmdWinCount (s : RateLimiter) (ip : String) (now : ℚ) : ℕ :=
  (s.command_counts ip).countP fun p => decide (now - p.1 < 60)

/-- Trailing-window failed-login count of the raw state: the number of
login-failure samples of `ip` within the trailing 300 s. -/
def loginWinCount (s : RateLimiter) (ip : String) (now : ℚ) : ℕ :=
  (s.login_attempts ip).countP fun p => decide (now - p.1 < 300)

/-! ## BBSDatabase.create_user (secure_bbs.py lines 283-296)

The `users` table with its `UNIQUE NOT NULL` username column is modelled as
the list of inserted rows; the `sqlite3.IntegrityError` raised by a
duplicate insert (and swallowed into `return False`) fires exactly when the
username is already present.  `secrets.token_hex(32)` and
`hashlib.pbkdf2_hmac('sha256', password, salt, 100000).hex()` are external
primitives, passed in as the generated salt value and an abstract
derivation function `pbkdf2hex`. -/

/-- A row of the `users` table (the columns `create_user` writes). -/
structure UserRow where
  username : List Char
  password_hash : List Char
  salt : List Char
  real_name : List Char
  location : List Char
deriving DecidableEq

/-- `BBSDatabase.create_user(username, password, real_name, location)`:
returns the boolean result together with the resulting table. -/
def create_user (pbkdf2hex : List Char → List Char → List Char)
    (salt : List Char) (table : List UserRow)
    (username password real_name location : List Char) :
    Bool × List UserRow :=
  if table.any fun r => r.username = username then (false, table)
  else (true, table ++ [⟨username, pbkdf2hex password salt, salt,
                         real_name, location⟩])

/-! ## WebBBSSession: login and registration (bbs_web.py lines 101-348)

The fields of `WebBBSSession` touched by the login/registration state
machine.  `temp_data.get('username','')` is modelled as `temp_username`
(default `[]`); the initially empty `registration_state` dict as a record
whose `.get` defaults are the record's fields (`step` defaults to
`'username'`, `username`/`password`/`real_name` to `''`).  The database
lookups `verify_user` and `create_user` are injected as oracles
`verify : username → password → Bool` and
`create : username → password → real_name → location → Bool`. -/

/-- `self.login_step`. -/
inductive LoginStep where
  | banner | username | password | register_offer
deriving DecidableEq

/-- `self.registration_state['step']`. -/
inductive RegStep where
  | username | password | real_name | location
deriving DecidableEq

/-- `self.registration_state` with its `.get` defaults. -/
structure RegState where
  step : RegStep := .username
  username : List Char := []
  password : List Char := []
  real_name : List Char := []
deriving DecidableEq

/-- `self.current_menu` (the states the login/registration flow reaches). -/
inductive MenuTag where
  | login | register | main
deriving DecidableEq

/-- The login/registration projection of a `WebBBSSession`. -/
structure LoginSession where
  username : Option (List Char) := none
  authenticated : Bool := false
  current_menu : MenuTag := .login
  login_attempts : ℕ := 0
  login_step : LoginStep := .banner
  temp_username : List Char := []
  registration : RegState := {}
deriving DecidableEq

/-- The parts of the response dict and of the emitted side effects that the
claims observe: `session_ended` (absent = `false`), the rows appended to the
`login_log` table via `database.log_login_attempt(username, ip, success)`,
and the `rate_limiter.record_login_attempt(ip, success)` calls. -/
structure LoginResp where
  session_ended : Bool := false
  db_log : List (List Char × Bool) := []
  rl_log : List Bool := []
deriving DecidableEq

/-- `WebBBSSession.handle_registration(user_input)` (bbs_web.py lines
230-348).  `MAX_REALNAME = MAX_LOCATION = 50`. -/
def handle_registration
    (create : List Char → List Char → List Char → List Char → Bool)
    (s : LoginSession) (input : List Char) : LoginSession × LoginResp :=
  match s.registration.step with
  | .username =>
    if s.registration.username.isEmpty then (s, {})
    else ({ s with registration := { s.registration with step := .password } }, {})
  | .password =>
    if input.isEmpty then (s, {})
    else if !(validate_password input).1 then (s, {})
    else
      ({ s with registration :=
          { s.registration with password := input, step := .real_name } }, {})
  | .real_name =>
    let rn := sanitize_text input (some 50)
    ({ s with registration :=
        { s.registration with real_name := rn, step := .location } }, {})
  | .location =>
    let loc := sanitize_text input (some 50)
    if create s.registration.username s.registration.password
        s.registration.real_name loc then
      ({ s with username := some s.registration.username,
                authenticated := true, current_menu := .main }, {})
    else (s, {})

/-- `WebBBSSession.handle_login(user_input)` (bbs_web.py lines 101-228).
`max_login_attempts = 3`.  On a password mismatch the counter is
incremented first, both audit records are written, and only then is the
counter compared with the maximum. -/
def handle_login (verify : List Char → List Char → Bool)
    (create : List Char → List Char → List Char → List Char → Bool)
    (s : LoginSession) (input : List Char) : LoginSession × LoginResp :=
  match s.login_step with
  | .banner => ({ s with login_step := .username }, {})
  | .username =>
    if (pyStrip input).isEmpty then (s, {})
    else if !(validate_username input).1 then (s, {})
    else ({ s with temp_username := input, login_step := .password }, {})
  | .password =>
    let username := s.temp_username
    if input.isEmpty then (s, {})
    else if verify username input then
      ({ s with username := some username, authenticated := true,
                current_menu := .main },
       { db_log := [(username, true)], rl_log := [true] })
    else
      let s1 := { s with login_attempts := s.login_attempts + 1 }
      if 3 ≤ s1.login_attempts then
        (s1, { session_ended := true,
               db_log := [(username, false)], rl_log := [false] })
      else
        ({ s1 with login_step := .register_offer },
         { db_log := [(username, false)], rl_log := [false] })
  | .register_offer =>
    let response := pyUpper (pyStrip input)
    if response = "Y".data ∨ response = "YES".data then
      let s1 := { s with current_menu := .register,
                         registration := { step := .username,
                                           username := s.temp_username,
                                           password := [] } }
      handle_registration create s1 []
    else
      ({ s with login_step := .username, temp_username := [] }, {})

/-- The input as the login/registration handlers receive it from
`process_input` (bbs_web.py lines 79-81): truthy input is first passed
through `sanitize_text(user_input, 100)`. -/
def outer_sanitize (raw : List Char) : List Char :=
  if raw.isEmpty then raw else sanitize_text raw (some 100)

/-- One `process_input` call of a session sitting in the registration menu:
the outer sanitization followed by `handle_registration`. -/
def registration_input
    (create : List Char → List Char → List Char → List Char → Bool)
    (s : LoginSession) (raw : List Char) : LoginSession :=
  (handle_registration create s (outer_sanitize raw)).1

/-- A whole sequence of `process_input` calls in the registration menu. -/
def registration_run
    (create : List Char → List Char → List Char → List Char → Bool)
    (s : LoginSession) (inputs : List (List Char)) : LoginSession :=
  inputs.foldl (registration_input create) s

/-! ## WebBBSSession: message composition (bbs_web.py lines 696-831)

The fields of `WebBBSSession` touched by the posting flow: `message_state`,
the `temp_message` dict (`step` with `.get` default `'subject'`, `subject`,
`body_lines` with default `[]`) and the rows inserted into the `messages`
table.  `message_area`, `from_user` and `to_user` do not interact with the
claims and are omitted from the stored row projection. -/

/-- `self.temp_message['step']`. -/
inductive PostStep where
  | subject | body
deriving DecidableEq

/-- `self.temp_message` with its defaults. -/
structure TempMessage where
  step : PostStep := .subject
  subject : List Char := []
  body_lines : List (List Char) := []
deriving DecidableEq

/-- `self.message_state`. -/
inductive MsgState where
  | menu | view | post
deriving DecidableEq

/-- The message-composition projection of a `WebBBSSession`, with the
`(subject, body)` rows inserted into the `messages` table. -/
structure MsgSession where
  message_state : MsgState := .post
  temp_message : TempMessage := {}
  messages : List (List Char × List Char) := []
deriving DecidableEq

/-- Which branch of the posting flow produced the response (identified by
the response dict's output text). -/
inductive PostOut where
  | promptSubject | cancelled | emptySubject | subjectAccepted
  | tooLong | lineAccepted | postedOk | incomplete
deriving DecidableEq

/-- `WebBBSSession.post_message_to_db()` (bbs_web.py lines 785-808):
`body = '\n'.join(body_lines)`; an empty subject or body aborts, otherwise
the row is inserted and the collector state is reset. -/
def post_message_to_db (s : MsgSession) : MsgSession × PostOut :=
  let subject := s.temp_message.subject
  let body := List.intercalate ['\n'] s.temp_message.body_lines
  if subject.isEmpty ∨ body.isEmpty then (s, .incomplete)
  else
    ({ message_state := .view, temp_message := {},
       messages := s.messages ++ [(subject, body)] }, .postedOk)

/-- `WebBBSSession.handle_post_message(user_input)` (bbs_web.py lines
696-783).  In the body step the sanitized line is appended to
`body_lines` first and only afterwards is the cumulative length compared
with 1000; the branch that reports `Message too long` keeps the line. -/
def handle_post_message (s : MsgSession) (input : List Char) :
    MsgSession × PostOut :=
  match s.temp_message.step with
  | .subject =>
    if input.isEmpty then (s, .promptSubject)
    else if pyUpper input = "CANCEL".data then
      ({ s with message_state := .menu }, .cancelled)
    else if (pyStrip input).isEmpty then (s, .emptySubject)
    else
      let subject := sanitize_text input (some 100)
      ({ s with temp_message :=
          { s.temp_message with subject := subject, step := .body } },
       .subjectAccepted)
  | .body =>
    if pyUpper input = "CANCEL".data then
      ({ s with message_state := .menu }, .cancelled)
    else if pyUpper input = "END".data then post_message_to_db s
    else
      let line := sanitize_text input (some 200)
      let lines2 := s.temp_message.body_lines ++ [line]
      let s2 := { s with temp_message :=
        { s.temp_message with body_lines := lines2 } }
      if 1000 < (lines2.map List.length).sum then (s2, .tooLong)
      else (s2, .lineAccepted)

/-- One `process_input` call of a session sitting in the posting flow:
outer sanitization (bbs_web.py lines 79-81) followed by
`handle_post_message`. -/
def post_input (s : MsgSession) (raw : List Char) : MsgSession × PostOut :=
  handle_post_message s (outer_sanitize raw)

/-- A sequence of `process_input` calls in the posting flow. -/
def post_run (s : MsgSession) (inputs : List (List Char)) : MsgSession :=
  inputs.foldl (fun t raw => (post_input t raw).1) s

/-! ## WebBBSManager.cleanup_sessions (bbs_web.py lines 1029-1055) -/

/-- The per-session data `is_session_valid` reads (bbs_web.py lines 46-58):
`idle_timeout = 1800`, `login_timeout = 300`. -/
structure WebSessEntry where
  authenticated : Bool
  last_activity : ℚ
deriving DecidableEq

/-- `WebBBSSession.is_session_valid()` at time `now`. -/
def is_session_valid (e : WebSessEntry) (now : ℚ) : Bool :=
  if 1800 < now - e.last_activity then false
  else if !e.authenticated && 300 < now - e.last_activity then false
  else true

/-- The manager state: the `sessions` dict (insertion-ordered association
list) and `last_cleanup`; `cleanup_interval = 300`. -/
structure WebBBSManager where
  sessions : List (List Char × WebSessEntry)
  last_cleanup : ℚ
deriving DecidableEq

/-- `WebBBSManager.cleanup_sessions()` at time `now`: inside the 300 s
interval it returns immediately; otherwise every session failing
`is_session_valid` is removed and `last_cleanup` is set to `now`. -/
def cleanup_sessions (m : WebBBSManager) (now : ℚ) : WebBBSManager :=
  if now - m.last_cleanup < 300 then m
  else
    { sessions := m.sessions.filter fun p => is_session_valid p.2 now,
      last_cleanup := now }

/-- Whether a `cleanup_sessions()` call at time `now` passes the time guard
and performs the expired-session sweep. -/
def cleanup_performs_sweep (m : WebBBSManager) (now : ℚ) : Bool :=
  !decide (now - m.last_cleanup < 300)

/-! ## Spec-side predicates and reachability -/

/-- The spec's `now < lockout_until` condition, on the raw lockout table. -/
def lockoutActiveSpec (s : RateLimiter) (ip : String) (now : ℚ) : Prop :=
  ∃ u, s.lockouts ip = some u ∧ now < u

/-- The states a `RateLimiter` instance can reach: the constructor state
followed by any sequence of `record_command`, `record_login_attempt`,
`is_rate_limited` and `cleanup_old_entries` calls at nondecreasing
wall-clock times. -/
inductive ReachRL : RateLimiter → ℚ → Prop where
  | init (t : ℚ) : ReachRL RateLimiter.init t
  | step_cmd {s : RateLimiter} {t : ℚ} (ip : String) (t2 : ℚ) :
      ReachRL s t → t ≤ t2 → ReachRL (record_command s ip t2) t2
  | step_login {s : RateLimiter} {t : ℚ} (ip : String) (ok : Bool) (t2 : ℚ) :
      ReachRL s t → t ≤ t2 → ReachRL (record_login_attempt s ip ok t2) t2
  | step_query {s : RateLimiter} {t : ℚ} (ip : String) (t2 : ℚ) :
      ReachRL s t → t ≤ t2 → ReachRL (is_rate_limited s ip t2).2 t2
  | step_cleanup {s : RateLimiter} {t : ℚ} (ip : String) (t2 : ℚ) :
      ReachRL s t → t ≤ t2 → ReachRL (cleanup_old_entries s ip t2) t2

/-- Invariant carried by every reachable limiter state at time `t`: all
recorded failure samples lie in the past, and whenever the trailing-300 s
failure count of an address reaches 5 at a present or future instant, that
address is under an active lockout at that instant. -/
def RLInv (s : RateLimiter) (t : ℚ) : Prop :=
  (∀ ip : String, ∀ p ∈ s.login_attempts ip, p.1 ≤ t) ∧
  (∀ ip : String, ∀ T : ℚ, t ≤ T → 5 ≤ loginWinCount s ip T →
    lockoutActiveSpec s ip T)

/-- A limiter state holding one command sample recorded 4000 s before the
query used to exhibit the pruning side effect of `is_rate_limited`. -/
def staleLimiter : RateLimiter :=
  { command_counts := fun j => if j = "198.51.100.7" then [(0, 1)] else []
    login_attempts := fun _ => []
    lockouts := fun _ => none }

/-- The full-string word-character condition the specification describes for
usernames, together with the single trailing newline tolerated by the
anchored regex `^[a-zA-Z0-9_]+$` (Python `$` also matches just before a
terminal newline). -/
def wordLineSpec (u : List Char) : Prop :=
  (u ≠ [] ∧ ∀ c ∈ u, wordChar c = true) ∨
    ∃ w, w ≠ [] ∧ (∀ c ∈ w, wordChar c = true) ∧ u = w ++ ['\n']

/-- The specification's rejection condition for `validate_username`, amended
by the trailing-newline tolerance of the anchored regex. -/
def usernameRejectSpec (u : List Char) : Prop :=
  u = [] ∨ u.length < 3 ∨ 20 < u.length ∨ ¬wordLineSpec u ∨
    (u.headD ' ').isAlpha = false ∨ pyLower u ∈ reservedNames

/-- A 100-character body line (the longest a line can be after the outer
`sanitize_text(user_input, 100)` truncation). -/
def line100 : List Char := List.replicate 100 'a'

/-- A fresh posting collector, as set up by `show_message_menu` on `P`. -/
def postStart : MsgSession :=
  { message_state := .post, temp_message := {}, messages := [] }

/-- A subject line followed by eleven 100-character body lines and `END`:
after ten lines the accumulated length is exactly 1000, the eleventh pushes
it to 1100, and `END` stores the joined 1110-character body. -/
def capInputs : List (List Char) :=
  "subj".data :: (List.replicate 11 line100 ++ ["END".data])

/-- A collector that already holds ten 100-character lines. -/
def capState : MsgSession :=
  { message_state := .post
    temp_message := { step := .body, subject := "s".data,
                      body_lines := List.replicate 10 line100 }
    messages := [] }

/-! ## Helper lemmas -/

theorem reMatchWordLine_iff (u : List Char) :
    reMatchWordLine u = true ↔ wordLineSpec u := by
  unfold reMatchWordLine wordLineSpec
  rcases List.eq_nil_or_concat u with rfl | ⟨w, c, rfl⟩
  · simp
  · rw [List.concat_eq_append]
    constructor
    · intro h
      rw [Bool.or_eq_true] at h
      rcases h with h | h
      · rw [Bool.and_eq_true] at h
        left
        refine ⟨by simp, List.all_eq_true.mp h.2⟩
      · simp only [List.getLast?_concat, List.dropLast_concat,
          Bool.and_eq_true, beq_iff_eq, Bool.not_eq_true',
          List.isEmpty_eq_false] at h
        obtain ⟨⟨hc, hne⟩, hall⟩ := h
        right
        exact ⟨w, hne, List.all_eq_true.mp hall, by rw [hc]⟩
    · intro h
      rw [Bool.or_eq_true]
      rcases h with ⟨hne, hall⟩ | ⟨v, hvne, hvall, heq⟩
      · left
        rw [Bool.and_eq_true]
        refine ⟨by simp, List.all_eq_true.mpr hall⟩
      · right
        obtain ⟨rfl, hs⟩ := List.append_inj' heq rfl
        obtain rfl : c = '\n' := by injection hs
        simp [List.getLast?_concat, List.dropLast_concat, hvne,
          List.all_eq_true.mpr hvall]

theorem contains_reserved_iff (u : List Char) :
    reservedNames.contains u = true ↔ u ∈ reservedNames := by
  simp [List.contains]

/-! ## Claim theorems -/

/-- Claim C7 (counterexample): the claim says `validate_username` fails on
every string containing a character outside `[A-Za-z0-9_]`, but the anchored
regex `^[a-zA-Z0-9_]+$` tolerates a single trailing newline, so `"ab\n"` —
which contains the non-word character `'\n'` — is accepted as valid. -/
theorem validate_username_newline_accepted :
    ('\n' ∈ ['a', 'b', '\n']) ∧ wordChar '\n' = false ∧
      (validate_username ['a', 'b', '\n']).1 = true := by decide

/-- Claim C7 (amended): `validate_username` fails exactly when the string is
empty, its length is outside [3,20], it is not one-or-more word characters
optionally followed by a single trailing newline (the regex `$` tolerance),
its first character is not a letter, or its lower-casing is reserved; and in
particular `admin`/`ADMIN`/`Admin` and `_bob` are rejected while `bob_2` is
accepted. -/
theorem validate_username_rejects_iff :
    (∀ u : List Char, (validate_username u).1 = false ↔ usernameRejectSpec u) ∧
      (validate_username "admin".data).1 = false ∧
      (validate_username "ADMIN".data).1 = false ∧
      (validate_username "Admin".data).1 = false ∧
      (validate_username "_bob".data).1 = false ∧
      (validate_username "bob_2".data).1 = true := by
  refine ⟨?_, by decide, by decide, by decide, by decide, by decide⟩
  intro u
  unfold validate_username
  split_ifs with h1 h2 h3 h4 h5 h6
  · exact iff_of_true rfl (Or.inl (List.isEmpty_iff.mp h1))
  · exact iff_of_true rfl (Or.inr (Or.inr (Or.inl h2)))
  · exact iff_of_true rfl (Or.inr (Or.inl h3))
  · refine iff_of_true rfl (Or.inr (Or.inr (Or.inr (Or.inl ?_))))
    intro hwl
    rw [(reMatchWordLine_iff u).mpr hwl] at h4
    simp at h4
  · refine iff_of_true rfl (Or.inr (Or.inr (Or.inr (Or.inr (Or.inl ?_)))))
    rwa [Bool.not_eq_true'] at h5
  · exact iff_of_true rfl
      (Or.inr (Or.inr (Or.inr (Or.inr (Or.inr ((contains_reserved_iff _).mp h6))))))
  · rw [false_iff]
    intro hspec
    rcases hspec with he | hlt | hgt | hw | ha | hr
    · exact h1 (by simp [he])
    · exact h3 hlt
    · exact h2 hgt
    · refine hw ((reMatchWordLine_iff u).mp ?_)
      cases hre : reMatchWordLine u
      · rw [hre] at h4; simp at h4
      · rfl
    · have h5a : (u.headD ' ').isAlpha = true := by
        cases hal : (u.headD ' ').isAlpha
        · rw [hal] at h5; simp at h5
        · rfl
      rw [h5a] at ha; cases ha
    · exact h6 ((contains_reserved_iff _).mpr hr)

/-- Claim C1 (counterexample): the claim says every input containing a
banned pattern is replaced by the sentinel, but the null byte — itself
`BANNED_PATTERNS[4]` — is stripped by the control-character `re.sub` before
the pattern scan, so `"a\x00b"` comes back as `"ab"`, not the sentinel. -/
theorem sanitize_null_byte_not_filtered :
    containsSub [Char.ofNat 0] ['a', Char.ofNat 0, 'b'] = true ∧
      sanitize_text ['a', Char.ofNat 0, 'b'] none = ['a', 'b'] ∧
      (['a', 'b'] : List Char) ≠ CONTENT_FILTERED := by decide

/-- Claim C1 (amended): `sanitize_text` strips null bytes and control
characters first and scans for banned patterns only afterwards; for every
input whose control-stripped form matches a banned pattern it returns
exactly the sentinel `"[CONTENT FILTERED]"`, never a partial redaction. -/
theorem sanitize_banned_yields_sentinel (text : List Char) (mx : Option Nat)
    (h : bannedAny (text.filter fun c => !ctrlChar c) = true) :
    sanitize_text text mx = CONTENT_FILTERED := by
  cases text with
  | nil => exact absurd h (by decide)
  | cons c cs => simp [sanitize_text, h]

/-- Witness for the amended C1 theorem at the concrete input
`"javascript:alert"`. -/
theorem sanitize_banned_yields_sentinel_witness :
    bannedAny ("javascript:alert".data.filter fun c => !ctrlChar c) = true ∧
      sanitize_text "javascript:alert".data none = CONTENT_FILTERED :=
  ⟨by decide, sanitize_banned_yields_sentinel "javascript:alert".data none (by decide)⟩

/-- Claim C8: `create_user` returns `false` — swallowing the integrity
error rather than raising — and leaves the user table unchanged when the
username already exists; on a fresh username it inserts exactly one row
whose salt is the generated salt and whose password hash is the PBKDF2
derivation from the password and that salt, and returns `true`. -/
theorem create_user_duplicate_or_fresh
    (pbkdf2hex : List Char → List Char → List Char) (salt : List Char)
    (table : List UserRow) (username password real_name location : List Char) :
    ((∃ r ∈ table, r.username = username) →
      create_user pbkdf2hex salt table username password real_name location
        = (false, table)) ∧
    ((∀ r ∈ table, r.username ≠ username) →
      create_user pbkdf2hex salt table username password real_name location
        = (true, table ++ [⟨username, pbkdf2hex password salt, salt,
                            real_name, location⟩])) := by
  constructor
  · rintro ⟨r, hr, he⟩
    have hb : (table.any fun r => r.username = username) = true := by
      simp only [List.any_eq_true, decide_eq_true_eq]
      exact ⟨r, hr, he⟩
    unfold create_user
    rw [if_pos hb]
  · intro hall
    have hb : ¬ (table.any fun r => r.username = username) = true := by
      simp only [List.any_eq_true, decide_eq_true_eq, not_exists]
      intro r
      simp only [not_and]
      exact hall r
    unfold create_user
    rw [if_neg hb]

/-- Witness for C8 at a one-row table: inserting `bob` again fails and
leaves the table alone, inserting `eve` appends the derived row. -/
theorem create_user_duplicate_or_fresh_witness :
    create_user (fun p s => p ++ s) "s1".data
        [⟨"bob".data, "h0".data, "s0".data, [], []⟩] "bob".data "pw".data [] []
      = (false, [⟨"bob".data, "h0".data, "s0".data, [], []⟩]) ∧
    create_user (fun p s => p ++ s) "s1".data
        [⟨"bob".data, "h0".data, "s0".data, [], []⟩] "eve".data "pw".data [] []
      = (true, [⟨"bob".data, "h0".data, "s0".data, [], []⟩,
                ⟨"eve".data, "pw".data ++ "s1".data, "s1".data, [], []⟩]) :=
  ⟨(create_user_duplicate_or_fresh (fun p s => p ++ s) "s1".data
      [⟨"bob".data, "h0".data, "s0".data, [], []⟩] "bob".data "pw".data [] []).1
      ⟨⟨"bob".data, "h0".data, "s0".data, [], []⟩, by simp, rfl⟩,
   (create_user_duplicate_or_fresh (fun p s => p ++ s) "s1".data
      [⟨"bob".data, "h0".data, "s0".data, [], []⟩] "eve".data "pw".data [] []).2
      (by decide)⟩

/-- Claim C9: two `cleanup_sessions` calls within one 300 s cleanup
interval perform the expired-session sweep at most once; moreover if the
first call swept, the second is a complete no-op, leaving the session
table and the last-cleanup timestamp unchanged. -/
theorem cleanup_twice_within_interval (m : WebBBSManager) (t1 t2 : ℚ)
    (h : t2 - t1 < 300) :
    (cleanup_performs_sweep m t1 &&
        cleanup_performs_sweep (cleanup_sessions m t1) t2) = false ∧
    (cleanup_performs_sweep m t1 = true →
      cleanup_sessions (cleanup_sessions m t1) t2 = cleanup_sessions m t1) := by
  by_cases h1 : t1 - m.last_cleanup < 300
  · have hs : cleanup_performs_sweep m t1 = false := by
      simp [cleanup_performs_sweep, h1]
    rw [hs]
    exact ⟨rfl, fun hc => absurd hc (by simp)⟩
  · have hm1 : cleanup_sessions m t1 =
        { sessions := m.sessions.filter fun p => is_session_valid p.2 t1,
          last_cleanup := t1 } := by
      unfold cleanup_sessions
      rw [if_neg h1]
    have hg : t2 - (cleanup_sessions m t1).last_cleanup < 300 := by
      rw [hm1]
      exact h
    constructor
    · have hs2 : cleanup_performs_sweep (cleanup_sessions m t1) t2 = false := by
        simp [cleanup_performs_sweep, hg]
      rw [hs2, Bool.and_false]
    · intro _
      set m1 := cleanup_sessions m t1 with hm1def
      unfold cleanup_sessions
      rw [if_pos hg]

/-- A manager due for a sweep, used to witness C9. -/
def demoManager : WebBBSManager :=
  { sessions := [("sid1".data, ⟨false, 0⟩)], last_cleanup := 0 }

/-- Witness for C9: the first call at t=1000 sweeps, the second at t=1100
is a no-op. -/
theorem cleanup_twice_within_interval_witness :
    (cleanup_performs_sweep demoManager 1000 &&
        cleanup_performs_sweep (cleanup_sessions demoManager 1000) 1100) = false ∧
    (cleanup_performs_sweep demoManager 1000 = true →
      cleanup_sessions (cleanup_sessions demoManager 1000) 1100
        = cleanup_sessions demoManager 1000) :=
  cleanup_twice_within_interval demoManager 1000 1100 (by norm_num)

/-- Claim C3: on a password mismatch, `handle_login` (the handler
`process_input` dispatches to in the login menu) increments the per-session
attempt counter, writes both audit records (the `login_log` row and the
rate-limiter sample), and returns `session_ended = true` as soon as the
counter reaches 3 cumulative failures; with fewer than 3 failures the
session is not ended and the flow moves to the registration offer. -/
theorem login_failure_audit_and_cutoff
    (verify : List Char → List Char → Bool)
    (create : List Char → List Char → List Char → List Char → Bool)
    (s : LoginSession) (input : List Char)
    (hstep : s.login_step = LoginStep.password)
    (hne : input.isEmpty = false)
    (hbad : verify s.temp_username input = false) :
    (handle_login verify create s input).1.login_attempts
        = s.login_attempts + 1 ∧
    (handle_login verify create s input).2.db_log
        = [(s.temp_username, false)] ∧
    (handle_login verify create s input).2.rl_log = [false] ∧
    (3 ≤ s.login_attempts + 1 →
      (handle_login verify create s input).2.session_ended = true) ∧
    (s.login_attempts + 1 < 3 →
      (handle_login verify create s input).2.session_ended = false ∧
      (handle_login verify create s input).1.login_step
        = LoginStep.register_offer) := by
  unfold handle_login
  rw [hstep]
  by_cases h3 : 3 ≤ s.login_attempts + 1
  · simp only [hne, hbad, h3, Bool.false_eq_true, if_false, if_true, if_pos]
    exact ⟨trivial, trivial, trivial, fun _ => trivial,
           fun hlt => absurd h3 (by omega)⟩
  · simp only [hne, hbad, h3, Bool.false_eq_true, if_false, if_neg]
    exact ⟨trivial, trivial, trivial, fun hf => hf.elim,
           fun _ => ⟨trivial, trivial⟩⟩

/-- A session sitting at the password prompt with no prior failures, used
to witness C3. -/
def pwPromptSession : LoginSession :=
  { login_step := .password, temp_username := "bob".data }

/-- Witness for C3 at a concrete mismatching login. -/
theorem login_failure_audit_and_cutoff_witness :
    (handle_login (fun _ _ => false) (fun _ _ _ _ => true) pwPromptSession
        "x".data).1.login_attempts = pwPromptSession.login_attempts + 1 ∧
    (handle_login (fun _ _ => false) (fun _ _ _ _ => true) pwPromptSession
        "x".data).2.db_log = [(pwPromptSession.temp_username, false)] ∧
    (handle_login (fun _ _ => false) (fun _ _ _ _ => true) pwPromptSession
        "x".data).2.rl_log = [false] ∧
    (3 ≤ pwPromptSession.login_attempts + 1 →
      (handle_login (fun _ _ => false) (fun _ _ _ _ => true) pwPromptSession
        "x".data).2.session_ended = true) ∧
    (pwPromptSession.login_attempts + 1 < 3 →
      (handle_login (fun _ _ => false) (fun _ _ _ _ => true) pwPromptSession
        "x".data).2.session_ended = false ∧
      (handle_login (fun _ _ => false) (fun _ _ _ _ => true) pwPromptSession
        "x".data).1.login_step = LoginStep.register_offer) :=
  login_failure_audit_and_cutoff (fun _ _ => false) (fun _ _ _ _ => true)
    pwPromptSession "x".data rfl rfl rfl

/-- Claim C10: a session in the registration menu whose registration state
was not pre-seeded with a username never consumes input at the username
sub-step — every sequence of `process_input` calls leaves the whole session
state unchanged — while the only transition into the registration menu, the
login flow's register offer, pre-seeds the just-typed username. -/
theorem registration_unseeded_never_advances
    (create : List Char → List Char → List Char → List Char → Bool)
    (verify : List Char → List Char → Bool)
    (s : LoginSession)
    (h1 : s.registration.step = RegStep.username)
    (h2 : s.registration.username = []) :
    (∀ inputs : List (List Char), registration_run create s inputs = s) ∧
    (∀ s2 : LoginSession, ∀ input : List Char,
      s2.login_step = LoginStep.register_offer →
      (pyUpper (pyStrip input) = "Y".data ∨ pyUpper (pyStrip input) = "YES".data) →
      (handle_login verify create s2 input).1.registration.username
        = s2.temp_username) := by
  have hfix : ∀ raw, registration_input create s raw = s := by
    intro raw
    unfold registration_input handle_registration
    rw [h1]
    simp [h2]
  constructor
  · intro inputs
    induction inputs with
    | nil => rfl
    | cons x xs ih =>
      unfold registration_run at ih ⊢
      rw [List.foldl_cons, hfix x]
      exact ih
  · intro s2 input hs2 hy
    rcases hy with hy | hy
    · simp [handle_login, hs2, hy, handle_registration]
      split_ifs <;> rfl
    · simp [handle_login, hs2, hy, handle_registration]
      split_ifs <;> rfl

/-- A registration-menu session with no pre-seeded username. -/
def unseededSession : LoginSession :=
  { current_menu := .register, registration := { step := .username } }

/-- A login session at the register offer with `bob` as the just-typed
username. -/
def offerSession : LoginSession :=
  { login_step := .register_offer, temp_username := "bob".data }

/-- Witness for C10: two concrete inputs leave the unseeded session
untouched, and answering `Y` at the offer pre-seeds `bob`. -/
theorem registration_unseeded_never_advances_witness :
    registration_run (fun _ _ _ _ => true) unseededSession
        ["alice".data, "Passw0rd!".data] = unseededSession ∧
    (handle_login (fun _ _ => false) (fun _ _ _ _ => true) offerSession
        "Y".data).1.registration.username = offerSession.temp_username :=
  ⟨(registration_unseeded_never_advances (fun _ _ _ _ => true)
      (fun _ _ => false) unseededSession rfl rfl).1
      ["alice".data, "Passw0rd!".data],
   (registration_unseeded_never_advances (fun _ _ _ _ => true)
      (fun _ _ => false) unseededSession rfl rfl).2 offerSession "Y".data rfl
      (Or.inl (by decide))⟩

/-- Claim C2 (counterexample): the claim says a line is rejected once the
1000-character cap is exceeded and every stored body is at most 1000
characters, but the handler appends the sanitized line before checking:
posting eleven 100-character lines draws the too-long warning on the
eleventh yet keeps it, and `END` stores the joined 1110-character body. -/
theorem stored_body_exceeds_cap :
    (post_run postStart capInputs).messages.map (fun r => r.2.length)
      = [1110] ∧
    (post_input capState line100).2 = PostOut.tooLong ∧
    (post_input capState line100).1.temp_message.body_lines.length = 11 := by
  refine ⟨?_, ?_, ?_⟩ <;> · set_option maxRecDepth 20000 in rfl

/-- Claim C2 (amended): body lines are accumulated one per call until
`END`; each non-`CANCEL`/`END` line is sanitized and appended
unconditionally, the cumulative-length check happening only afterwards, so
exceeding 1000 characters merely produces a warning while the line is
kept, and `END` stores the join of all accumulated lines whatever its
length. -/
theorem body_line_always_appended (s : MsgSession) (input : List Char)
    (hstep : s.temp_message.step = PostStep.body)
    (hc : pyUpper input ≠ "CANCEL".data)
    (he : pyUpper input ≠ "END".data) :
    (handle_post_message s input).1.temp_message.body_lines
      = s.temp_message.body_lines ++ [sanitize_text input (some 200)] ∧
    (1000 < ((s.temp_message.body_lines
        ++ [sanitize_text input (some 200)]).map List.length).sum →
      (handle_post_message s input).2 = PostOut.tooLong) ∧
    (((s.temp_message.body_lines
        ++ [sanitize_text input (some 200)]).map List.length).sum ≤ 1000 →
      (handle_post_message s input).2 = PostOut.lineAccepted) ∧
    (s.temp_message.subject ≠ [] →
      List.intercalate ['\n'] s.temp_message.body_lines ≠ [] →
      (post_message_to_db s).1.messages = s.messages ++
        [(s.temp_message.subject,
          List.intercalate ['\n'] s.temp_message.body_lines)]) := by
  refine ⟨?_, ?_, ?_, ?_⟩
  · unfold handle_post_message
    rw [hstep]
    simp only [hc, he, if_neg, if_false]
    split_ifs <;> rfl
  · intro hlen
    unfold handle_post_message
    rw [hstep]
    simp only [hc, he, if_neg, if_false]
    rw [if_pos hlen]
  · intro hlen
    unfold handle_post_message
    rw [hstep]
    simp only [hc, he, if_neg, if_false]
    rw [if_neg (by omega)]
  · intro hsub hbody
    unfold post_message_to_db
    rw [if_neg (by simp [hsub, hbody])]

/-- Witness for the amended C2 theorem: appending a 5-character line to a
collector already holding 1000 characters warns but keeps the line. -/
theorem body_line_always_appended_witness :
    (handle_post_message capState "hello".data).1.temp_message.body_lines
      = capState.temp_message.body_lines
        ++ [sanitize_text "hello".data (some 200)] ∧
    (1000 < ((capState.temp_message.body_lines
        ++ [sanitize_text "hello".data (some 200)]).map List.length).sum →
      (handle_post_message capState "hello".data).2 = PostOut.tooLong) ∧
    (((capState.temp_message.body_lines
        ++ [sanitize_text "hello".data (some 200)]).map List.length).sum ≤ 1000 →
      (handle_post_message capState "hello".data).2 = PostOut.lineAccepted) ∧
    (capState.temp_message.subject ≠ [] →
      List.intercalate ['\n'] capState.temp_message.body_lines ≠ [] →
      (post_message_to_db capState).1.messages = capState.messages ++
        [(capState.temp_message.subject,
          List.intercalate ['\n'] capState.temp_message.body_lines)]) :=
  body_line_always_appended capState "hello".data rfl (by decide) (by decide)

theorem record_fail_login_attempts (s : RateLimiter) (ip : String) (now : ℚ) :
    (record_login_attempt s ip false now).login_attempts ip
      = s.login_attempts ip ++ [(now, 1)] := by
  unfold record_login_attempt
  simp only [Bool.false_eq_true, if_false]
  split_ifs <;> simp

theorem record_fail_lockout_set (s : RateLimiter) (ip : String) (now : ℚ)
    (h5 : 5 ≤ (s.login_attempts ip ++ [(now, 1)]).countP
        fun p : ℚ × ℕ => decide (now - p.1 < 300)) :
    (record_login_attempt s ip false now).lockouts ip = some (now + 300) := by
  unfold record_login_attempt
  simp only [Bool.false_eq_true, if_false]
  rw [if_pos h5]
  simp

theorem lockout_active_iff (s : RateLimiter) (ip : String) (now : ℚ) :
    lockout_active s ip now = true ↔ lockoutActiveSpec s ip now := by
  unfold lockout_active lockoutActiveSpec
  cases h : s.lockouts ip with
  | none => simp
  | some u => simp [decide_eq_true_eq]

/-- Claim C4: a failed login appends a sample to the failure window; the
moment the trailing-300 s failure count (including the new sample) reaches
5 the lockout is set to `now + 300`, after which `is_rate_limited` returns
true throughout the following 300 s; a successful login never removes
samples from or resets the failure window. -/
theorem record_login_failure_behavior (s : RateLimiter) (ip : String)
    (now : ℚ) :
    ((record_login_attempt s ip false now).login_attempts ip
        = s.login_attempts ip ++ [(now, 1)]) ∧
    (5 ≤ loginWinCount (record_login_attempt s ip false now) ip now →
      (record_login_attempt s ip false now).lockouts ip = some (now + 300)) ∧
    (5 ≤ loginWinCount (record_login_attempt s ip false now) ip now →
      ∀ T : ℚ, now ≤ T → T < now + 300 →
        (is_rate_limited (record_login_attempt s ip false now) ip T).1
          = true) ∧
    record_login_attempt s ip true now = s := by
  have h1 := record_fail_login_attempts s ip now
  refine ⟨h1, ?_, ?_, ?_⟩
  · intro h5
    apply record_fail_lockout_set
    unfold loginWinCount at h5
    rwa [h1] at h5
  · intro h5 T hT1 hT2
    have hlock : (record_login_attempt s ip false now).lockouts ip
        = some (now + 300) := by
      apply record_fail_lockout_set
      unfold loginWinCount at h5
      rwa [h1] at h5
    have hla : lockout_active (record_login_attempt s ip false now) ip T
        = true := by
      unfold lockout_active
      rw [hlock]
      simp [hT2]
    unfold is_rate_limited
    rw [if_pos hla]
  · unfold record_login_attempt
    simp

/-- Four failures already recorded from one address at time 0, used to
witness C4. -/
def fourFailures : RateLimiter :=
  { command_counts := fun _ => []
    login_attempts := fun j =>
      if j = "203.0.113.9" then [(0, 1), (0, 1), (0, 1), (0, 1)] else []
    lockouts := fun _ => none }

/-- Witness for C4: the fifth failure at time 0 locks the address out
until 300, and the limiter reports it limited at time 100. -/
theorem fourFailures_window_full :
    5 ≤ loginWinCount (record_login_attempt fourFailures "203.0.113.9" false 0)
      "203.0.113.9" 0 := by
  unfold loginWinCount
  rw [record_fail_login_attempts]
  have hp : ((0 : ℚ) - 0 < 300) = True := by norm_num
  simp [fourFailures, List.countP_cons, List.countP_nil, hp]

/-- Witness for C4: the fifth failure at time 0 locks the address out
until 300, and the limiter reports it limited at time 100. -/
theorem record_login_failure_behavior_witness :
    (record_login_attempt fourFailures "203.0.113.9" false 0).lockouts
        "203.0.113.9" = some (0 + 300) ∧
    (is_rate_limited (record_login_attempt fourFailures "203.0.113.9" false 0)
        "203.0.113.9" 100).1 = true :=
  ⟨(record_login_failure_behavior fourFailures "203.0.113.9" 0).2.1
      fourFailures_window_full,
   (record_login_failure_behavior fourFailures "203.0.113.9" 0).2.2.1
      fourFailures_window_full 100 (by norm_num) (by norm_num)⟩

theorem cleanup_window_projection (s : RateLimiter) (ip : String) (now : ℚ) :
    (cleanup_old_entries s ip now).command_counts ip
        = (s.command_counts ip).filter (fun p => decide (now - p.1 < 3600)) ∧
    (cleanup_old_entries s ip now).login_attempts ip
        = (s.login_attempts ip).filter (fun p => decide (now - p.1 < 3600)) := by
  unfold cleanup_old_entries
  simp

theorem is_rate_limited_snd_of_not_locked (s : RateLimiter) (ip : String)
    (now : ℚ) (h : lockout_active s ip now = false) :
    (is_rate_limited s ip now).2 = cleanup_old_entries s ip now := by
  unfold is_rate_limited
  rw [if_neg (by rw [h]; simp)]
  dsimp only
  split_ifs <;> rfl


/-- Claim C6 (counterexample): the claim says `is_rate_limited` is
side-effect-free, but outside an active lockout it calls
`cleanup_old_entries`, which drops samples older than 3600 s: querying an
address holding a 4000 s old command sample rewrites its command window. -/
theorem is_rate_limited_prunes_state :
    (is_rate_limited staleLimiter "198.51.100.7" 4000).2.command_counts
        "198.51.100.7"
      ≠ staleLimiter.command_counts "198.51.100.7" := by
  have hlo : lockout_active staleLimiter "198.51.100.7" 4000 = false := rfl
  rw [is_rate_limited_snd_of_not_locked staleLimiter "198.51.100.7" 4000 hlo,
    (cleanup_window_projection staleLimiter "198.51.100.7" 4000).1]
  have hp : (decide ((4000 : ℚ) - (0 : ℚ) < 3600)) = false := by
    rw [decide_eq_false_iff_not]
    norm_num
  simp [staleLimiter, hp]
  norm_num

theorem cleanup_cmd_count (s : RateLimiter) (ip : String) (now : ℚ) :
    ((cleanup_old_entries s ip now).command_counts ip).countP
        (fun p => decide (now - p.1 < 60))
      = cmdWinCount s ip now := by
  rw [(cleanup_window_projection s ip now).1, List.countP_filter]
  unfold cmdWinCount
  apply List.countP_congr
  intro a _
  by_cases h60 : now - a.1 < 60
  · have h36 : now - a.1 < 3600 := by linarith
    simp [h60, h36]
  · simp [h60]

/-- Claim C6 (amended): `is_rate_limited` returns true iff
`now < lockout_until` or the trailing-60 s command count is at least 30,
and it never touches the lockout table or any other address; but it is not
side-effect-free: unless the address is in active lockout (which returns
early), it prunes samples older than 3600 s from that address's command
and login windows. -/
theorem is_rate_limited_result_and_frame (s : RateLimiter) (ip : String)
    (now : ℚ) :
    ((is_rate_limited s ip now).1 = true ↔
      (lockoutActiveSpec s ip now ∨ 30 ≤ cmdWinCount s ip now)) ∧
    (is_rate_limited s ip now).2.lockouts = s.lockouts ∧
    (∀ j : String, j ≠ ip →
      (is_rate_limited s ip now).2.command_counts j = s.command_counts j ∧
      (is_rate_limited s ip now).2.login_attempts j = s.login_attempts j) ∧
    (lockoutActiveSpec s ip now → (is_rate_limited s ip now).2 = s) ∧
    (¬lockoutActiveSpec s ip now →
      (is_rate_limited s ip now).2.command_counts ip
          = (s.command_counts ip).filter (fun p => decide (now - p.1 < 3600)) ∧
      (is_rate_limited s ip now).2.login_attempts ip
          = (s.login_attempts ip).filter (fun p => decide (now - p.1 < 3600))) := by
  by_cases hlo : lockout_active s ip now = true
  · have heq : is_rate_limited s ip now = (true, s) := by
      unfold is_rate_limited
      rw [if_pos hlo]
    rw [heq]
    refine ⟨iff_of_true rfl (Or.inl ((lockout_active_iff s ip now).mp hlo)),
      rfl, fun j _ => ⟨rfl, rfl⟩, fun _ => rfl, fun hn => ?_⟩
    exact absurd ((lockout_active_iff s ip now).mp hlo) hn
  · have hspec : ¬lockoutActiveSpec s ip now := fun hsp =>
      hlo ((lockout_active_iff s ip now).mpr hsp)
    have hcnt := cleanup_cmd_count s ip now
    by_cases h30 : 30 ≤ ((cleanup_old_entries s ip now).command_counts ip).countP
        fun p => decide (now - p.1 < 60)
    · have heq : is_rate_limited s ip now = (true, cleanup_old_entries s ip now) := by
        unfold is_rate_limited
        rw [if_neg hlo, if_pos h30]
      rw [heq]
      refine ⟨iff_of_true rfl (Or.inr (by rwa [hcnt] at h30)), rfl,
        fun j hj => ?_, fun hsp => absurd hsp hspec, fun _ => ?_⟩
      · constructor <;> · unfold cleanup_old_entries; simp [hj]
      · constructor <;> · unfold cleanup_old_entries; simp
    · have heq : is_rate_limited s ip now = (false, cleanup_old_entries s ip now) := by
        unfold is_rate_limited
        rw [if_neg hlo, if_neg h30]
      rw [heq]
      refine ⟨iff_of_false (by simp) ?_, rfl,
        fun j hj => ?_, fun hsp => absurd hsp hspec, fun _ => ?_⟩
      · rintro (hsp | hge)
        · exact hspec hsp
        · rw [← hcnt] at hge
          exact h30 hge
      · constructor <;> · unfold cleanup_old_entries; simp [hj]
      · constructor <;> · unfold cleanup_old_entries; simp

/-- Witness for the amended C6 theorem at the stale one-sample state. -/
theorem is_rate_limited_result_and_frame_witness :
    ((is_rate_limited staleLimiter "198.51.100.7" 4000).1 = true ↔
      (lockoutActiveSpec staleLimiter "198.51.100.7" 4000 ∨
        30 ≤ cmdWinCount staleLimiter "198.51.100.7" 4000)) ∧
    (is_rate_limited staleLimiter "198.51.100.7" 4000).2.command_counts
        "198.51.100.7"
      = (staleLimiter.command_counts "198.51.100.7").filter
          (fun p => decide ((4000 : ℚ) - p.1 < 3600)) :=
  ⟨(is_rate_limited_result_and_frame staleLimiter "198.51.100.7" 4000).1,
   ((is_rate_limited_result_and_frame staleLimiter "198.51.100.7" 4000).2.2.2.2
      (by rintro ⟨u, hu, _⟩; exact Option.noConfusion hu)).1⟩

/-! ## The reachability invariant behind C5 -/

theorem record_fail_login_attempts_other (s : RateLimiter) (ip : String)
    (now : ℚ) (j : String) (hj : j ≠ ip) :
    (record_login_attempt s ip false now).login_attempts j
      = s.login_attempts j := by
  unfold record_login_attempt
  simp only [Bool.false_eq_true, if_false]
  split_ifs <;> simp [hj]

theorem record_fail_lockouts_of_ge (s : RateLimiter) (ip : String) (now : ℚ)
    (h5 : 5 ≤ (s.login_attempts ip ++ [(now, 1)]).countP
        fun p : ℚ × ℕ => decide (now - p.1 < 300)) :
    (record_login_attempt s ip false now).lockouts
      = fun j => if j = ip then some (now + 300) else s.lockouts j := by
  unfold record_login_attempt
  simp only [Bool.false_eq_true, if_false]
  rw [if_pos h5]

theorem record_fail_lockouts_of_lt (s : RateLimiter) (ip : String) (now : ℚ)
    (h5 : ¬5 ≤ (s.login_attempts ip ++ [(now, 1)]).countP
        fun p : ℚ × ℕ => decide (now - p.1 < 300)) :
    (record_login_attempt s ip false now).lockouts = s.lockouts := by
  unfold record_login_attempt
  simp only [Bool.false_eq_true, if_false]
  rw [if_neg h5]

theorem cleanup_other_projection (s : RateLimiter) (ip : String) (now : ℚ)
    (j : String) (hj : j ≠ ip) :
    (cleanup_old_entries s ip now).command_counts j = s.command_counts j ∧
    (cleanup_old_entries s ip now).login_attempts j = s.login_attempts j := by
  unfold cleanup_old_entries
  exact ⟨by simp [hj], by simp [hj]⟩

theorem RLInv_mono {s : RateLimiter} {t t2 : ℚ} (h : RLInv s t)
    (ht : t ≤ t2) : RLInv s t2 := by
  obtain ⟨h1, h2⟩ := h
  exact ⟨fun ip p hp => le_trans (h1 ip p hp) ht,
         fun ip T hT => h2 ip T (le_trans ht hT)⟩

theorem RLInv_init (t : ℚ) : RLInv RateLimiter.init t := by
  constructor
  · intro ip p hp
    simp [RateLimiter.init] at hp
  · intro ip T _ h5
    exfalso
    unfold loginWinCount RateLimiter.init at h5
    simp at h5

theorem RLInv_record_command {s : RateLimiter} {t : ℚ} (h : RLInv s t)
    (ip : String) (t2 : ℚ) (ht : t ≤ t2) :
    RLInv (record_command s ip t2) t2 := by
  obtain ⟨h1, h2⟩ := RLInv_mono h ht
  exact ⟨h1, h2⟩

theorem RLInv_record_fail {s : RateLimiter} {t : ℚ} (h : RLInv s t)
    (ip : String) (t2 : ℚ) (ht : t ≤ t2) :
    RLInv (record_login_attempt s ip false t2) t2 := by
  obtain ⟨h1, h2⟩ := RLInv_mono h ht
  have hts : ∀ p ∈ s.login_attempts ip ++ [(t2, 1)], (p : ℚ × ℕ).1 ≤ t2 := by
    intro p hp
    rcases List.mem_append.mp hp with hp | hp
    · exact h1 ip p hp
    · rw [List.mem_singleton.mp hp]
  constructor
  · intro j p hp
    by_cases hj : j = ip
    · subst hj
      rw [record_fail_login_attempts] at hp
      exact hts p hp
    · rw [record_fail_login_attempts_other s ip t2 j hj] at hp
      exact h1 j p hp
  · intro j T hT h5T
    by_cases hj : j = ip
    · subst hj
      have hcnt : loginWinCount (record_login_attempt s j false t2) j T
          = (s.login_attempts j ++ [(t2, 1)]).countP
              fun p : ℚ × ℕ => decide (T - p.1 < 300) := by
        unfold loginWinCount
        rw [record_fail_login_attempts]
      rw [hcnt] at h5T
      by_cases h5 : 5 ≤ (s.login_attempts j ++ [(t2, 1)]).countP
          fun p : ℚ × ℕ => decide (t2 - p.1 < 300)
      · refine ⟨t2 + 300, ?_, ?_⟩
        · rw [record_fail_lockouts_of_ge s j t2 h5]
          simp
        · by_contra hTT
          push_neg at hTT
          have hzero : (s.login_attempts j ++ [(t2, 1)]).countP
              (fun p : ℚ × ℕ => decide (T - p.1 < 300)) = 0 := by
            rw [List.countP_eq_zero]
            intro a ha
            have haT := hts a ha
            simp only [decide_eq_true_eq]
            intro hlt
            linarith
          rw [hzero] at h5T
          omega
      · exfalso
        have hmono : (s.login_attempts j ++ [(t2, 1)]).countP
              (fun p : ℚ × ℕ => decide (T - p.1 < 300))
            ≤ (s.login_attempts j ++ [(t2, 1)]).countP
              (fun p : ℚ × ℕ => decide (t2 - p.1 < 300)) := by
          apply List.countP_mono_left
          intro x _ hx
          simp only [decide_eq_true_eq] at hx ⊢
          linarith
        omega
    · have hcnt : loginWinCount (record_login_attempt s ip false t2) j T
          = loginWinCount s j T := by
        unfold loginWinCount
        rw [record_fail_login_attempts_other s ip t2 j hj]
      rw [hcnt] at h5T
      obtain ⟨u, hu, hTu⟩ := h2 j T hT h5T
      refine ⟨u, ?_, hTu⟩
      by_cases h5 : 5 ≤ (s.login_attempts ip ++ [(t2, 1)]).countP
          fun p : ℚ × ℕ => decide (t2 - p.1 < 300)
      · rw [record_fail_lockouts_of_ge s ip t2 h5]
        simpa [hj] using hu
      · rw [record_fail_lockouts_of_lt s ip t2 h5]
        exact hu

theorem RLInv_cleanup {s : RateLimiter} {t : ℚ} (h : RLInv s t)
    (ip : String) (t2 : ℚ) (ht : t ≤ t2) :
    RLInv (cleanup_old_entries s ip t2) t2 := by
  obtain ⟨h1, h2⟩ := RLInv_mono h ht
  constructor
  · intro j p hp
    by_cases hj : j = ip
    · subst hj
      rw [(cleanup_window_projection s j t2).2] at hp
      exact h1 j p (List.mem_filter.mp hp).1
    · rw [(cleanup_other_projection s ip t2 j hj).2] at hp
      exact h1 j p hp
  · intro j T hT h5T
    by_cases hj : j = ip
    · subst hj
      have hsub : loginWinCount (cleanup_old_entries s j t2) j T
          ≤ loginWinCount s j T := by
        unfold loginWinCount
        rw [(cleanup_window_projection s j t2).2]
        exact List.Sublist.countP_le _ (List.filter_sublist _)
      exact h2 j T hT (le_trans h5T hsub)
    · have hcnt : loginWinCount (cleanup_old_entries s ip t2) j T
          = loginWinCount s j T := by
        unfold loginWinCount
        rw [(cleanup_other_projection s ip t2 j hj).2]
      rw [hcnt] at h5T
      exact h2 j T hT h5T

theorem RLInv_query {s : RateLimiter} {t : ℚ} (h : RLInv s t)
    (ip : String) (t2 : ℚ) (ht : t ≤ t2) :
    RLInv (is_rate_limited s ip t2).2 t2 := by
  by_cases hlo : lockout_active s ip t2 = true
  · have heq : (is_rate_limited s ip t2).2 = s := by
      unfold is_rate_limited
      rw [if_pos hlo]
    rw [heq]
    exact RLInv_mono h ht
  · have hlof : lockout_active s ip t2 = false := by
      revert hlo
      cases lockout_active s ip t2 <;> simp
    rw [is_rate_limited_snd_of_not_locked s ip t2 hlof]
    exact RLInv_cleanup h ip t2 ht

theorem ReachRL_inv {s : RateLimiter} {t : ℚ} (h : ReachRL s t) :
    RLInv s t := by
  induction h with
  | init t => exact RLInv_init t
  | step_cmd ip t2 _ ht ih => exact RLInv_record_command ih ip t2 ht
  | step_login ip ok t2 _ ht ih =>
    cases ok
    · exact RLInv_record_fail ih ip t2 ht
    · exact RLInv_mono ih ht
  | step_query ip t2 _ ht ih => exact RLInv_query ih ip t2 ht
  | step_cleanup ip t2 _ ht ih => exact RLInv_cleanup ih ip t2 ht

theorem is_rate_limited_fst_of_not_locked (s : RateLimiter) (ip : String)
    (now : ℚ) (h : lockout_active s ip now = false) :
    (is_rate_limited s ip now).1 = decide (30 ≤ cmdWinCount s ip now) := by
  unfold is_rate_limited
  rw [if_neg (by rw [h]; simp)]
  dsimp only
  by_cases h30 : 30 ≤ ((cleanup_old_entries s ip now).command_counts ip).countP
      fun p : ℚ × ℕ => decide (now - p.1 < 60)
  · rw [if_pos h30]
    rw [cleanup_cmd_count] at h30
    simp [h30]
  · rw [if_neg h30]
    rw [cleanup_cmd_count] at h30
    simp [h30]

/-- Claim C5: in every reachable rate-limiter state, an address is reported
rate-limited iff it is under an active lockout, or its trailing-60 s command
count is at least 30, or its trailing-300 s failed-login count is at least 5
(the last disjunct never fires on its own: reachable states satisfying it
are always under lockout, which is why the code need not re-check it). -/
theorem rate_limited_iff_windows {s : RateLimiter} {now : ℚ}
    (hreach : ReachRL s now) (ip : String) (T : ℚ) (hT : now ≤ T) :
    (is_rate_limited s ip T).1 = true ↔
      (lockoutActiveSpec s ip T ∨ 30 ≤ cmdWinCount s ip T ∨
        5 ≤ loginWinCount s ip T) := by
  have hinv := ReachRL_inv hreach
  by_cases hlo : lockout_active s ip T = true
  · have heq : (is_rate_limited s ip T).1 = true := by
      unfold is_rate_limited
      rw [if_pos hlo]
    exact iff_of_true heq (Or.inl ((lockout_active_iff s ip T).mp hlo))
  · have hlof : lockout_active s ip T = false := by
      revert hlo
      cases lockout_active s ip T <;> simp
    have hnspec : ¬lockoutActiveSpec s ip T := fun hs =>
      hlo ((lockout_active_iff s ip T).mpr hs)
    have hnlogin : ¬5 ≤ loginWinCount s ip T := fun h5 =>
      hnspec (hinv.2 ip T hT h5)
    have hfst := is_rate_limited_fst_of_not_locked s ip T hlof
    by_cases h30 : 30 ≤ cmdWinCount s ip T
    · refine iff_of_true ?_ (Or.inr (Or.inl h30))
      rw [hfst]
      simp [h30]
    · refine iff_of_false ?_ ?_
      · rw [hfst]
        simp [h30]
      · rintro (hx | hx | hx)
        exacts [hnspec hx, h30 hx, hnlogin hx]

/-- Witness for C5 at the reachable state obtained by recording one failed
login at time 0, queried at time 10. -/
theorem rate_limited_iff_windows_witness :
    (is_rate_limited (record_login_attempt RateLimiter.init "203.0.113.5"
        false 0) "203.0.113.5" 10).1 = true ↔
      (lockoutActiveSpec (record_login_attempt RateLimiter.init "203.0.113.5"
          false 0) "203.0.113.5" 10 ∨
        30 ≤ cmdWinCount (record_login_attempt RateLimiter.init "203.0.113.5"
          false 0) "203.0.113.5" 10 ∨
        5 ≤ loginWinCount (record_login_attempt RateLimiter.init "203.0.113.5"
          false 0) "203.0.113.5" 10) :=
  rate_limited_iff_windows
    (ReachRL.step_login "203.0.113.5" false 0 (ReachRL.init 0) le_rfl)
    "203.0.113.5" 10 (by norm_num)

end BBS
